import Mathlib

/-!
Formal model of the rl_sar control core (rl_sdk.cpp / rl_real_go2.cpp):
the behavior state machine, observation assembly, action decoding, and
the advisory safety monitors.  Numeric values are modelled over ℚ;
external math-library routines (sin, cos, asin, atan2) are taken as
function parameters, and the policy network is opaque.
-/

/-- Requested control mode: the `STATE` enum read from `control.control_state`. -/
inductive STATE where
  | STATE_WAITING
  | STATE_POS_GETUP
  | STATE_POS_GETDOWN
  | STATE_RL_LOCOMOTION
  | STATE_RL_NAVIGATION
  | STATE_RL_CLIMB
  | STATE_RESET_SIMULATION
  | STATE_TOGGLE_SIMULATION
  deriving DecidableEq

/-- The five concrete FSM states, identified in the source by their string names. -/
inductive FSMStateName where
  | RLFSMStateWaiting
  | RLFSMStateGetUp
  | RLFSMStateGetDown
  | RLFSMStateRL_Locomotion
  | RLFSMStateRL_Navigation
  deriving DecidableEq

/-- A 3-vector (shape (1,3) tensor in the source). -/
structure V3 where
  x : ℚ
  y : ℚ
  z : ℚ
  deriving DecidableEq

/-- A quaternion stored in raw index order 0..3 (shape (1,4) tensor / `std::vector` of
4 doubles); which index holds the scalar part depends on the configured framework. -/
structure Q4 where
  a : ℚ
  b : ℚ
  c : ℚ
  d : ℚ
  deriving DecidableEq

/-- Measured per-joint state (`MotorState`), one entry per DOF index. -/
structure MotorState where
  q : ℕ → ℚ
  dq : ℕ → ℚ
  tau_est : ℕ → ℚ

/-- IMU part of the robot state. -/
structure IMU where
  quaternion : Q4
  gyroscope : V3

/-- Embeds `RobotState<double>`: sensor snapshot read each fast tick. -/
structure RobotState where
  imu : IMU
  motor_state : MotorState

/-- Embeds `MotorCommand` inside `RobotCommand<double>`: the persistent, incrementally
mutated joint command (per-DOF target position, velocity, gains, torque). -/
structure MotorCommand where
  q : ℕ → ℚ
  dq : ℕ → ℚ
  kp : ℕ → ℚ
  kd : ℕ → ℚ
  tau : ℕ → ℚ

/-- Operator intent (`Control`): velocity command plus requested mode. -/
structure Control where
  control_state : STATE
  x : ℚ
  y : ℚ
  yaw : ℚ

/-- A torch tensor as observed by the hand-off consumers: element count and
element access.  An undefined (default-constructed) tensor is `Option.none`
at use sites. -/
structure Tensor where
  numel : ℕ
  data : ℕ → ℚ

/-- The configuration (`params`) fields used by the modelled core. -/
structure Params where
  num_of_dofs : ℕ
  dt : ℚ
  decimation : ℕ
  framework : String
  observations : List String
  clip_obs : ℚ
  lin_vel_scale : ℚ
  ang_vel_scale : ℚ
  dof_pos_scale : ℚ
  dof_vel_scale : ℚ
  commands_scale : V3
  action_scale : ℕ → ℚ
  wheel_indices : List ℕ
  default_dof_pos : ℕ → ℚ
  rl_kp : ℕ → ℚ
  rl_kd : ℕ → ℚ
  fixed_kp : ℕ → ℚ
  fixed_kd : ℕ → ℚ
  torque_limits : ℕ → ℚ

/-- The mutable fields of the `RL` object touched by the FSM states: params,
operator control, ramp progress, pose snapshots, the ready flag, the stored
decoded outputs, and the two hand-off queues. -/
structure RLSys where
  params : Params
  control : Control
  running_percent : ℚ
  now_state : RobotState
  start_state : RobotState
  rl_init_done : Bool
  output_dof_pos : ℕ → ℚ
  output_dof_vel : ℕ → ℚ
  output_dof_pos_queue : List (Option Tensor)
  output_dof_vel_queue : List (Option Tensor)

/-- Embeds `RLFSMStateWaiting::checkChange`. -/
def RLFSMStateWaiting.checkChange (rl : RLSys) : FSMStateName :=
  if rl.control.control_state = STATE.STATE_POS_GETUP then
    FSMStateName.RLFSMStateGetUp
  else
    FSMStateName.RLFSMStateWaiting

/-- Embeds `RLFSMStateGetUp::checkChange`. -/
def RLFSMStateGetUp.checkChange (rl : RLSys) : FSMStateName :=
  if 1 ≤ rl.running_percent then
    if rl.control.control_state = STATE.STATE_RL_LOCOMOTION then
      FSMStateName.RLFSMStateRL_Locomotion
    else if rl.control.control_state = STATE.STATE_RL_NAVIGATION then
      FSMStateName.RLFSMStateRL_Navigation
    else if rl.control.control_state = STATE.STATE_POS_GETDOWN then
      FSMStateName.RLFSMStateGetDown
    else if rl.control.control_state = STATE.STATE_WAITING then
      FSMStateName.RLFSMStateWaiting
    else
      FSMStateName.RLFSMStateGetUp
  else
    FSMStateName.RLFSMStateGetUp

/-- Embeds `RLFSMStateGetDown::checkChange`. -/
def RLFSMStateGetDown.checkChange (rl : RLSys) : FSMStateName :=
  if 1 ≤ rl.running_percent then
    FSMStateName.RLFSMStateWaiting
  else if rl.control.control_state = STATE.STATE_POS_GETUP then
    FSMStateName.RLFSMStateGetUp
  else
    FSMStateName.RLFSMStateGetDown

/-- Embeds `RLFSMStateRL_Locomotion::checkChange`. -/
def RLFSMStateRL_Locomotion.checkChange (rl : RLSys) : FSMStateName :=
  if rl.control.control_state = STATE.STATE_POS_GETDOWN then
    FSMStateName.RLFSMStateGetDown
  else if rl.control.control_state = STATE.STATE_POS_GETUP then
    FSMStateName.RLFSMStateGetUp
  else if rl.control.control_state = STATE.STATE_RL_LOCOMOTION then
    FSMStateName.RLFSMStateRL_Locomotion
  else if rl.control.control_state = STATE.STATE_RL_NAVIGATION then
    FSMStateName.RLFSMStateRL_Navigation
  else if rl.control.control_state = STATE.STATE_WAITING then
    FSMStateName.RLFSMStateWaiting
  else
    FSMStateName.RLFSMStateRL_Locomotion

/-- Embeds `RLFSMStateRL_Navigation::checkChange`. -/
def RLFSMStateRL_Navigation.checkChange (rl : RLSys) : FSMStateName :=
  if rl.control.control_state = STATE.STATE_POS_GETDOWN then
    FSMStateName.RLFSMStateGetDown
  else if rl.control.control_state = STATE.STATE_POS_GETUP then
    FSMStateName.RLFSMStateGetUp
  else if rl.control.control_state = STATE.STATE_RL_LOCOMOTION then
    FSMStateName.RLFSMStateRL_Locomotion
  else if rl.control.control_state = STATE.STATE_RL_NAVIGATION then
    FSMStateName.RLFSMStateRL_Navigation
  else if rl.control.control_state = STATE.STATE_WAITING then
    FSMStateName.RLFSMStateWaiting
  else
    FSMStateName.RLFSMStateRL_Navigation

/-- One transition evaluation of the FSM: dispatch to the current state's
`checkChange`, as `FSM::run` does once per fast-task tick. -/
def FSM.checkChange (current : FSMStateName) (rl : RLSys) : FSMStateName :=
  match current with
  | FSMStateName.RLFSMStateWaiting => RLFSMStateWaiting.checkChange rl
  | FSMStateName.RLFSMStateGetUp => RLFSMStateGetUp.checkChange rl
  | FSMStateName.RLFSMStateGetDown => RLFSMStateGetDown.checkChange rl
  | FSMStateName.RLFSMStateRL_Locomotion => RLFSMStateRL_Locomotion.checkChange rl
  | FSMStateName.RLFSMStateRL_Navigation => RLFSMStateRL_Navigation.checkChange rl

/-- The §4.5 transition table, written from the specification's words:
Waiting goes to StandUp only on a StandUp request; StandUp holds until
progress ≥ 1 and then follows the requested mode (Locomotion, Navigation,
SitDown, Waiting); SitDown goes to Waiting once progress ≥ 1, aborts to
StandUp on a StandUp request, otherwise stays; the learned modes follow any
requested mode immediately (including self-transitions) and otherwise stay. -/
def specNextState (current : FSMStateName) (progress : ℚ) (requested : STATE) : FSMStateName :=
  match current with
  | FSMStateName.RLFSMStateWaiting =>
      if requested = STATE.STATE_POS_GETUP then FSMStateName.RLFSMStateGetUp
      else FSMStateName.RLFSMStateWaiting
  | FSMStateName.RLFSMStateGetUp =>
      if progress < 1 then FSMStateName.RLFSMStateGetUp
      else
        match requested with
        | STATE.STATE_RL_LOCOMOTION => FSMStateName.RLFSMStateRL_Locomotion
        | STATE.STATE_RL_NAVIGATION => FSMStateName.RLFSMStateRL_Navigation
        | STATE.STATE_POS_GETDOWN => FSMStateName.RLFSMStateGetDown
        | STATE.STATE_WAITING => FSMStateName.RLFSMStateWaiting
        | _ => FSMStateName.RLFSMStateGetUp
  | FSMStateName.RLFSMStateGetDown =>
      if 1 ≤ progress then FSMStateName.RLFSMStateWaiting
      else if requested = STATE.STATE_POS_GETUP then FSMStateName.RLFSMStateGetUp
      else FSMStateName.RLFSMStateGetDown
  | FSMStateName.RLFSMStateRL_Locomotion =>
      match requested with
      | STATE.STATE_POS_GETDOWN => FSMStateName.RLFSMStateGetDown
      | STATE.STATE_POS_GETUP => FSMStateName.RLFSMStateGetUp
      | STATE.STATE_RL_LOCOMOTION => FSMStateName.RLFSMStateRL_Locomotion
      | STATE.STATE_RL_NAVIGATION => FSMStateName.RLFSMStateRL_Navigation
      | STATE.STATE_WAITING => FSMStateName.RLFSMStateWaiting
      | _ => FSMStateName.RLFSMStateRL_Locomotion
  | FSMStateName.RLFSMStateRL_Navigation =>
      match requested with
      | STATE.STATE_POS_GETDOWN => FSMStateName.RLFSMStateGetDown
      | STATE.STATE_POS_GETUP => FSMStateName.RLFSMStateGetUp
      | STATE.STATE_RL_LOCOMOTION => FSMStateName.RLFSMStateRL_Locomotion
      | STATE.STATE_RL_NAVIGATION => FSMStateName.RLFSMStateRL_Navigation
      | STATE.STATE_WAITING => FSMStateName.RLFSMStateWaiting
      | _ => FSMStateName.RLFSMStateRL_Navigation

/-- C1: one evaluation of the state machine's transition check yields, for every
(state, requested-mode, progress) triple, exactly the next state of the §4.5
table: Waiting goes to StandUp only when StandUp is requested and otherwise
stays; StandUp stays until progress ≥ 1 and only then follows the requested
mode to Locomotion, Navigation, SitDown, or Waiting; SitDown goes to Waiting
once progress ≥ 1, to StandUp when StandUp is requested, and otherwise stays;
the learned modes go immediately to the state matching any requested mode
(including self-transitions) and otherwise stay.  The transition is a pure
function of the current evaluation's inputs: no dwell time, no debounce. -/
theorem fsm_transition_matches_table (rl : RLSys) (current : FSMStateName) :
    FSM.checkChange current rl
      = specNextState current rl.running_percent rl.control.control_state := by
  cases current
  case RLFSMStateWaiting =>
    cases h : rl.control.control_state <;>
      simp [FSM.checkChange, RLFSMStateWaiting.checkChange, specNextState, h]
  case RLFSMStateGetUp =>
    rcases lt_or_le rl.running_percent 1 with hp | hp
    · cases h : rl.control.control_state <;>
        simp [FSM.checkChange, RLFSMStateGetUp.checkChange, specNextState, h, hp, not_le.mpr hp]
    · cases h : rl.control.control_state <;>
        simp [FSM.checkChange, RLFSMStateGetUp.checkChange, specNextState, h, hp, not_lt.mpr hp]
  case RLFSMStateGetDown =>
    rcases lt_or_le rl.running_percent 1 with hp | hp
    · cases h : rl.control.control_state <;>
        simp [FSM.checkChange, RLFSMStateGetDown.checkChange, specNextState, h, hp, not_le.mpr hp]
    · cases h : rl.control.control_state <;>
        simp [FSM.checkChange, RLFSMStateGetDown.checkChange, specNextState, h, hp, not_lt.mpr hp]
  case RLFSMStateRL_Locomotion =>
    cases h : rl.control.control_state <;>
      simp [FSM.checkChange, RLFSMStateRL_Locomotion.checkChange, specNextState, h]
  case RLFSMStateRL_Navigation =>
    cases h : rl.control.control_state <;>
      simp [FSM.checkChange, RLFSMStateRL_Navigation.checkChange, specNextState, h]

/-- Embeds `RLFSMStateWaiting::enter`: reset the ramp progress. -/
def RLFSMStateWaiting.enter (rl : RLSys) : RLSys :=
  { rl with running_percent := 0 }

/-- Embeds `RLFSMStateWaiting::run`: command position := currently measured position for
every DOF; all other command fields are left untouched. -/
def RLFSMStateWaiting.run (rl : RLSys) (fsm_state : RobotState)
    (fsm_command : MotorCommand) : RLSys × MotorCommand :=
  (rl,
   { fsm_command with
     q := fun i =>
       if i < rl.params.num_of_dofs then fsm_state.motor_state.q i else fsm_command.q i })

/-- Embeds `RLFSMStateGetUp::enter`: reset progress, snapshot the measured robot state
into `now_state`, and record it as `start_state`. -/
def RLFSMStateGetUp.enter (rl : RLSys) (fsm_state : RobotState) : RLSys :=
  { rl with running_percent := 0, now_state := fsm_state, start_state := fsm_state }

/-- Embeds `RLFSMStateGetUp::run`: while progress < 1, advance it by 1/500 (clamped at 1)
and command lerp(entry pose, default pose, progress) with zero velocity, fixed
gains and zero torque for every DOF. -/
def RLFSMStateGetUp.run (rl : RLSys) (fsm_command : MotorCommand) : RLSys × MotorCommand :=
  if rl.running_percent < 1 then
    let p := min (rl.running_percent + 1 / 500) 1
    let n := rl.params.num_of_dofs
    ({ rl with running_percent := p },
     { q := fun i =>
         if i < n then
           (1 - p) * rl.now_state.motor_state.q i + p * rl.params.default_dof_pos i
         else fsm_command.q i,
       dq := fun i => if i < n then 0 else fsm_command.dq i,
       kp := fun i => if i < n then rl.params.fixed_kp i else fsm_command.kp i,
       kd := fun i => if i < n then rl.params.fixed_kd i else fsm_command.kd i,
       tau := fun i => if i < n then 0 else fsm_command.tau i })
  else (rl, fsm_command)

/-- Embeds `RLFSMStateGetDown::enter`: reset progress and snapshot the measured robot
state into `now_state` (`start_state` is left as recorded by the last
`RLFSMStateGetUp::enter`). -/
def RLFSMStateGetDown.enter (rl : RLSys) (fsm_state : RobotState) : RLSys :=
  { rl with running_percent := 0, now_state := fsm_state }

/-- Embeds `RLFSMStateGetDown::run`: identical ramp mechanics to GetUp, but the
interpolation target is `start_state` — the pose snapshotted by the most recent
GetUp activation. -/
def RLFSMStateGetDown.run (rl : RLSys) (fsm_command : MotorCommand) : RLSys × MotorCommand :=
  if rl.running_percent < 1 then
    let p := min (rl.running_percent + 1 / 500) 1
    let n := rl.params.num_of_dofs
    ({ rl with running_percent := p },
     { q := fun i =>
         if i < n then
           (1 - p) * rl.now_state.motor_state.q i + p * rl.start_state.motor_state.q i
         else fsm_command.q i,
       dq := fun i => if i < n then 0 else fsm_command.dq i,
       kp := fun i => if i < n then rl.params.fixed_kp i else fsm_command.kp i,
       kd := fun i => if i < n then rl.params.fixed_kd i else fsm_command.kd i,
       tau := fun i => if i < n then 0 else fsm_command.tau i })
  else (rl, fsm_command)

/-- Embeds `RLFSMStateRL_Locomotion::enter`: (re)initialize the RL resources via
`InitRL`; the outcome of the config reload and model load (which may throw) is
passed in as `initResult`.  On success the ready flag is set and the freshly
loaded parameters, output initialization (`InitOutputs`) and control reset
(`InitControl`) take effect; on failure the error is logged, the ready flag is
cleared and the requested mode is forced to StandUp. -/
def RLFSMStateRL_Locomotion.enter (rl : RLSys) (initResult : Except String Params) : RLSys :=
  match initResult with
  | Except.ok newParams =>
      { rl with
        params := newParams,
        rl_init_done := true,
        output_dof_pos := newParams.default_dof_pos,
        output_dof_vel := fun _ => 0,
        control := { rl.control with x := 0, y := 0, yaw := 0 } }
  | Except.error _ =>
      { rl with
        rl_init_done := false,
        control := { rl.control with control_state := STATE.STATE_POS_GETUP } }

/-- Embeds `RLFSMStateRL_Locomotion::exit`: clear the ready flag. -/
def RLFSMStateRL_Locomotion.exit (rl : RLSys) : RLSys :=
  { rl with rl_init_done := false }

/-- Embeds `RLFSMStateRL_Navigation::enter`: same initialization and failure fallback
as `RLFSMStateRL_Locomotion::enter`. -/
def RLFSMStateRL_Navigation.enter (rl : RLSys) (initResult : Except String Params) : RLSys :=
  match initResult with
  | Except.ok newParams =>
      { rl with
        params := newParams,
        rl_init_done := true,
        output_dof_pos := newParams.default_dof_pos,
        output_dof_vel := fun _ => 0,
        control := { rl.control with x := 0, y := 0, yaw := 0 } }
  | Except.error _ =>
      { rl with
        rl_init_done := false,
        control := { rl.control with control_state := STATE.STATE_POS_GETUP } }

/-- Embeds `RLFSMStateRL_Navigation::exit`: clear the ready flag. -/
def RLFSMStateRL_Navigation.exit (rl : RLSys) : RLSys :=
  { rl with rl_init_done := false }

/-- The per-tick ramp progress update shared by GetUp and GetDown:
while below 1, add 1/500 and clamp at 1; at (or beyond) 1, leave unchanged. -/
def progressStep (p : ℚ) : ℚ :=
  if p < 1 then min (p + 1 / 500) 1 else p

/-- C3: within one activation of StandUp or SitDown the progress counter is
reset to 0 exactly on (re-)entry, each run tick applies `progressStep`
(monotonically non-decreasing), and iterating from entry the progress after n
ticks is exactly min(n/500, 1): it increases by exactly 1/500 per tick while
below 1, clamps exactly at 1.0, and stays in [0, 1]. -/
theorem progress_counter_ramp :
    (∀ (rl : RLSys) (st : RobotState),
        (RLFSMStateGetUp.enter rl st).running_percent = 0
          ∧ (RLFSMStateGetDown.enter rl st).running_percent = 0)
    ∧ (∀ (rl : RLSys) (cmd : MotorCommand),
        ((RLFSMStateGetUp.run rl cmd).1).running_percent = progressStep rl.running_percent
          ∧ ((RLFSMStateGetDown.run rl cmd).1).running_percent
              = progressStep rl.running_percent)
    ∧ (∀ p : ℚ, p ≤ progressStep p)
    ∧ (∀ n : ℕ, progressStep^[n] 0 = min ((n : ℚ) / 500) 1) := by
  refine ⟨?_, ?_, ?_, ?_⟩
  · intro rl st
    exact ⟨rfl, rfl⟩
  · intro rl cmd
    constructor <;>
      · by_cases hp : rl.running_percent < 1 <;>
          simp [RLFSMStateGetUp.run, RLFSMStateGetDown.run, progressStep, hp]
  · intro p
    unfold progressStep
    split_ifs with h
    · exact le_min (by linarith) (by linarith)
    · exact le_refl p
  · intro n
    induction n with
    | zero => simp
    | succ k ih =>
      rw [Function.iterate_succ_apply', ih]
      rcases le_or_lt 500 k with h5 | h5
      · have hk : (500 : ℚ) ≤ (k : ℚ) := by exact_mod_cast h5
        have h1 : (1 : ℚ) ≤ (k : ℚ) / 500 := by
          rw [le_div_iff₀ (by norm_num : (0 : ℚ) < 500)]; linarith
        have h2 : (1 : ℚ) ≤ ((k : ℚ) + 1) / 500 := by
          rw [le_div_iff₀ (by norm_num : (0 : ℚ) < 500)]; linarith
        rw [min_eq_right h1]
        rw [progressStep, if_neg (by norm_num)]
        push_cast
        rw [min_eq_right h2]
      · have hk : (k : ℚ) < 500 := by exact_mod_cast h5
        have h1 : (k : ℚ) / 500 < 1 := by
          rw [div_lt_one (by norm_num : (0 : ℚ) < 500)]; linarith
        rw [min_eq_left h1.le]
        rw [progressStep, if_pos h1]
        push_cast
        have heq : (k : ℚ) / 500 + 1 / 500 = ((k : ℚ) + 1) / 500 := by ring
        rw [heq]

/-- C4: if policy/profile initialization fails on entering Locomotion or
Navigation, the entry handler clears the ready flag and forces the requested
mode to StandUp, so the very next transition evaluation of that state returns
GetUp; and exiting a learned mode clears the ready flag. -/
theorem rl_init_failure_forces_standup (rl : RLSys) (e : String) :
    (RLFSMStateRL_Locomotion.enter rl (Except.error e)).rl_init_done = false
    ∧ (RLFSMStateRL_Locomotion.enter rl (Except.error e)).control.control_state
        = STATE.STATE_POS_GETUP
    ∧ FSM.checkChange FSMStateName.RLFSMStateRL_Locomotion
        (RLFSMStateRL_Locomotion.enter rl (Except.error e))
        = FSMStateName.RLFSMStateGetUp
    ∧ (RLFSMStateRL_Navigation.enter rl (Except.error e)).rl_init_done = false
    ∧ (RLFSMStateRL_Navigation.enter rl (Except.error e)).control.control_state
        = STATE.STATE_POS_GETUP
    ∧ FSM.checkChange FSMStateName.RLFSMStateRL_Navigation
        (RLFSMStateRL_Navigation.enter rl (Except.error e))
        = FSMStateName.RLFSMStateGetUp
    ∧ (RLFSMStateRL_Locomotion.exit rl).rl_init_done = false
    ∧ (RLFSMStateRL_Navigation.exit rl).rl_init_done = false := by
  refine ⟨rfl, rfl, ?_, rfl, rfl, ?_, rfl, rfl⟩ <;>
    simp [FSM.checkChange, RLFSMStateRL_Locomotion.checkChange,
      RLFSMStateRL_Navigation.checkChange, RLFSMStateRL_Locomotion.enter,
      RLFSMStateRL_Navigation.enter]

/-- C8: on every SitDown tick with progress below 1, the commanded position per
DOF is lerp(pose snapshotted at SitDown entry, pose snapshotted at the most
recent StandUp activation, p) with p the tick's updated progress: GetUp's entry
is the only handler that writes `start_state` (it records the measured pose),
GetDown's entry records the measured pose only into `now_state`, and GetDown's
tick interpolates from `now_state` toward `start_state` — not toward a fixed
rest pose and not toward the default pose. -/
theorem sitdown_targets_last_standup_pose :
    (∀ (rl : RLSys) (st : RobotState),
        (RLFSMStateGetUp.enter rl st).start_state = st
          ∧ (RLFSMStateGetDown.enter rl st).start_state = rl.start_state
          ∧ (RLFSMStateGetDown.enter rl st).now_state = st)
    ∧ (∀ (rl : RLSys) (ir : Except String Params),
        (RLFSMStateWaiting.enter rl).start_state = rl.start_state
          ∧ (RLFSMStateRL_Locomotion.enter rl ir).start_state = rl.start_state
          ∧ (RLFSMStateRL_Navigation.enter rl ir).start_state = rl.start_state
          ∧ (RLFSMStateRL_Locomotion.exit rl).start_state = rl.start_state
          ∧ (RLFSMStateRL_Navigation.exit rl).start_state = rl.start_state)
    ∧ (∀ (rl : RLSys) (cmd : MotorCommand) (i : ℕ),
        i < rl.params.num_of_dofs → rl.running_percent < 1 →
          ((RLFSMStateGetDown.run rl cmd).2).q i
            = (1 - min (rl.running_percent + 1 / 500) 1) * rl.now_state.motor_state.q i
              + min (rl.running_percent + 1 / 500) 1 * rl.start_state.motor_state.q i) := by
  refine ⟨?_, ?_, ?_⟩
  · intro rl st
    exact ⟨rfl, rfl, rfl⟩
  · intro rl ir
    cases ir <;> exact ⟨rfl, rfl, rfl, rfl, rfl⟩
  · intro rl cmd i hi hp
    simp [RLFSMStateGetDown.run, hp, hi]

/-- A concrete 1-DOF parameter set used to instantiate theorems with hypotheses. -/
def demoParams : Params :=
  { num_of_dofs := 1
    dt := 1 / 500
    decimation := 4
    framework := "isaacgym"
    observations := ["ang_vel_body", "gravity_vec", "commands", "dof_pos", "dof_vel", "actions"]
    clip_obs := 100
    lin_vel_scale := 2
    ang_vel_scale := 1 / 4
    dof_pos_scale := 1
    dof_vel_scale := 1 / 20
    commands_scale := ⟨2, 2, 1 / 4⟩
    action_scale := fun _ => 1 / 4
    wheel_indices := [0]
    default_dof_pos := fun _ => 1 / 10
    rl_kp := fun _ => 40
    rl_kd := fun _ => 1
    fixed_kp := fun _ => 80
    fixed_kd := fun _ => 3
    torque_limits := fun _ => 33 }

/-- A concrete measured robot state. -/
def demoRobotState : RobotState :=
  { imu := { quaternion := ⟨1, 0, 0, 0⟩, gyroscope := ⟨0, 0, 0⟩ }
    motor_state := { q := fun _ => 2, dq := fun _ => 0, tau_est := fun _ => 0 } }

/-- A concrete joint command. -/
def demoCmd : MotorCommand :=
  { q := fun _ => 5, dq := fun _ => 5, kp := fun _ => 3, kd := fun _ => 3, tau := fun _ => 9 }

/-- A concrete system state part-way through a sit-down: `now_state` holds pose 2
(snapshot at SitDown entry), `start_state` holds pose 4 (snapshot at the last
StandUp activation), progress 0. -/
def demoSysGetDown : RLSys :=
  { params := demoParams
    control := { control_state := STATE.STATE_POS_GETDOWN, x := 0, y := 0, yaw := 0 }
    running_percent := 0
    now_state := demoRobotState
    start_state :=
      { imu := { quaternion := ⟨1, 0, 0, 0⟩, gyroscope := ⟨0, 0, 0⟩ }
        motor_state := { q := fun _ => 4, dq := fun _ => 0, tau_est := fun _ => 0 } }
    rl_init_done := false
    output_dof_pos := fun _ => 0
    output_dof_vel := fun _ => 0
    output_dof_pos_queue := []
    output_dof_vel_queue := [] }

/-- Witness for C8: with entry pose 2, last StandUp pose 4 and progress stepping
to 1/500, the first SitDown tick commands (1 − 1/500)·2 + (1/500)·4 = 501/250. -/
theorem sitdown_targets_last_standup_pose_witness :
    (0 : ℕ) < demoSysGetDown.params.num_of_dofs
      ∧ demoSysGetDown.running_percent < 1
      ∧ ((RLFSMStateGetDown.run demoSysGetDown demoCmd).2).q 0 = 501 / 250 := by
  refine ⟨by norm_num [demoSysGetDown, demoParams], by norm_num [demoSysGetDown], ?_⟩
  have h := sitdown_targets_last_standup_pose.2.2 demoSysGetDown demoCmd 0
    (by norm_num [demoSysGetDown, demoParams]) (by norm_num [demoSysGetDown])
  rw [h]
  norm_num [demoSysGetDown, demoRobotState]

/-- Embeds `try_pop` on a hand-off queue: non-blockingly take the front element if any
(the popped element may itself be an undefined tensor). -/
def tryPop (queue : List (Option Tensor)) : Option (Option Tensor) × List (Option Tensor) :=
  match queue with
  | [] => (none, [])
  | t :: rest => (some t, rest)

/-- Embeds `t.defined() && t.numel() > 0`: the popped tensor carries a usable value. -/
def tensorPresent : Option Tensor → Bool
  | none => false
  | some t => decide (0 < t.numel)

/-- Embeds `RLFSMStateRL_Locomotion::run`: `try_pop` the position queue and — only if
that succeeded (`&&` short-circuit) — the velocity queue; if both pops
succeeded, overwrite q (dq) from the stored decoded position (velocity) for
every DOF when the popped tensor is defined and non-empty, and set the
learned-mode gains and zero torque; otherwise leave the command untouched. -/
def RLFSMStateRL_Locomotion.run (rl : RLSys) (fsm_command : MotorCommand) :
    RLSys × MotorCommand :=
  match tryPop rl.output_dof_pos_queue with
  | (none, _) => (rl, fsm_command)
  | (some tpos, pq) =>
    match tryPop rl.output_dof_vel_queue with
    | (none, _) => ({ rl with output_dof_pos_queue := pq }, fsm_command)
    | (some tvel, vq) =>
      let n := rl.params.num_of_dofs
      ({ rl with output_dof_pos_queue := pq, output_dof_vel_queue := vq },
       { q := fun i =>
           if i < n then
             if tensorPresent tpos then rl.output_dof_pos i else fsm_command.q i
           else fsm_command.q i,
         dq := fun i =>
           if i < n then
             if tensorPresent tvel then rl.output_dof_vel i else fsm_command.dq i
           else fsm_command.dq i,
         kp := fun i => if i < n then rl.params.rl_kp i else fsm_command.kp i,
         kd := fun i => if i < n then rl.params.rl_kd i else fsm_command.kd i,
         tau := fun i => if i < n then 0 else fsm_command.tau i })

/-- Embeds `RLFSMStateRL_Navigation::run`: textually identical tick body to
`RLFSMStateRL_Locomotion::run`. -/
def RLFSMStateRL_Navigation.run (rl : RLSys) (fsm_command : MotorCommand) :
    RLSys × MotorCommand :=
  match tryPop rl.output_dof_pos_queue with
  | (none, _) => (rl, fsm_command)
  | (some tpos, pq) =>
    match tryPop rl.output_dof_vel_queue with
    | (none, _) => ({ rl with output_dof_pos_queue := pq }, fsm_command)
    | (some tvel, vq) =>
      let n := rl.params.num_of_dofs
      ({ rl with output_dof_pos_queue := pq, output_dof_vel_queue := vq },
       { q := fun i =>
           if i < n then
             if tensorPresent tpos then rl.output_dof_pos i else fsm_command.q i
           else fsm_command.q i,
         dq := fun i =>
           if i < n then
             if tensorPresent tvel then rl.output_dof_vel i else fsm_command.dq i
           else fsm_command.dq i,
         kp := fun i => if i < n then rl.params.rl_kp i else fsm_command.kp i,
         kd := fun i => if i < n then rl.params.rl_kd i else fsm_command.kd i,
         tau := fun i => if i < n then 0 else fsm_command.tau i })

/-- The C2 tick semantics as the specification states it (written from the
spec's words, for comparison with the code): on every tick, a command field for
which a new value was actually available this tick is overwritten — in
particular, whenever a usable decoded velocity tensor sits at the head of the
velocity queue the dq field of every DOF is overwritten with the stored decoded
velocity — and kp/kd are set to the learned-mode gains and tau to 0
unconditionally (per-field hold-last-value, not a wholesale skip). -/
def perFieldHoldClaim : Prop :=
  ∀ (rl : RLSys) (cmd : MotorCommand) (i : ℕ), i < rl.params.num_of_dofs →
    (∀ (tv : Option Tensor) (vq : List (Option Tensor)),
        rl.output_dof_vel_queue = tv :: vq → tensorPresent tv = true →
          ((RLFSMStateRL_Locomotion.run rl cmd).2).dq i = rl.output_dof_vel i)
      ∧ ((RLFSMStateRL_Locomotion.run rl cmd).2).kp i = rl.params.rl_kp i
      ∧ ((RLFSMStateRL_Locomotion.run rl cmd).2).tau i = 0

/-- A system state whose position queue is starved while a usable velocity
tensor (value 7) waits in the velocity queue. -/
def demoSysVelOnly : RLSys :=
  { params := demoParams
    control := { control_state := STATE.STATE_RL_LOCOMOTION, x := 0, y := 0, yaw := 0 }
    running_percent := 1
    now_state := demoRobotState
    start_state := demoRobotState
    rl_init_done := true
    output_dof_pos := fun _ => 0
    output_dof_vel := fun _ => 7
    output_dof_pos_queue := []
    output_dof_vel_queue := [some { numel := 1, data := fun _ => 7 }] }

/-- Counterexample to C2 as stated: with the position queue empty and a usable
velocity tensor available this tick, the code skips the whole update — dq keeps
its prior value 5 (not the available 7), kp keeps 3 (not the learned gain 40)
and tau keeps 9 (not 0) — so the per-field hold-last-value semantics the claim
asserts does not hold. -/
theorem locomotion_per_field_claim_false : ¬ perFieldHoldClaim := by
  intro h
  have h2 := (h demoSysVelOnly demoCmd 0 (by norm_num [demoSysVelOnly, demoParams])).2.1
  simp only [RLFSMStateRL_Locomotion.run, demoSysVelOnly, demoCmd, demoParams, tryPop] at h2
  norm_num at h2

/-- C2 amended: each Locomotion/Navigation tick pops the position queue and,
only if that yielded a tensor, also pops the velocity queue; only when both
pops yield tensors is the command updated — then per DOF q (dq) is overwritten
from the stored decoded position (velocity) exactly when the popped tensor is
defined and non-empty, kp/kd are set to the learned-mode gains and tau to 0.
If either pop fails the entire update (gains included) is skipped, so under
hand-off starvation the JointCommand retains exactly its prior tick's values;
Navigation's tick equals Locomotion's. -/
theorem locomotion_tick_update :
    (∀ (rl : RLSys) (cmd : MotorCommand),
        rl.output_dof_pos_queue = [] →
          RLFSMStateRL_Locomotion.run rl cmd = (rl, cmd))
    ∧ (∀ (rl : RLSys) (cmd : MotorCommand) (tp : Option Tensor)
          (pq : List (Option Tensor)),
        rl.output_dof_pos_queue = tp :: pq → rl.output_dof_vel_queue = [] →
          RLFSMStateRL_Locomotion.run rl cmd
            = ({ rl with output_dof_pos_queue := pq }, cmd))
    ∧ (∀ (rl : RLSys) (cmd : MotorCommand) (tp tv : Option Tensor)
          (pq vq : List (Option Tensor)) (i : ℕ),
        rl.output_dof_pos_queue = tp :: pq → rl.output_dof_vel_queue = tv :: vq →
          i < rl.params.num_of_dofs →
            ((RLFSMStateRL_Locomotion.run rl cmd).2).q i
                = (if tensorPresent tp then rl.output_dof_pos i else cmd.q i)
              ∧ ((RLFSMStateRL_Locomotion.run rl cmd).2).dq i
                  = (if tensorPresent tv then rl.output_dof_vel i else cmd.dq i)
              ∧ ((RLFSMStateRL_Locomotion.run rl cmd).2).kp i = rl.params.rl_kp i
              ∧ ((RLFSMStateRL_Locomotion.run rl cmd).2).kd i = rl.params.rl_kd i
              ∧ ((RLFSMStateRL_Locomotion.run rl cmd).2).tau i = 0
              ∧ (RLFSMStateRL_Locomotion.run rl cmd).1
                  = { rl with output_dof_pos_queue := pq, output_dof_vel_queue := vq })
    ∧ (∀ (rl : RLSys) (cmd : MotorCommand),
        RLFSMStateRL_Navigation.run rl cmd = RLFSMStateRL_Locomotion.run rl cmd) := by
  refine ⟨?_, ?_, ?_, ?_⟩
  · intro rl cmd h
    simp [RLFSMStateRL_Locomotion.run, tryPop, h]
  · intro rl cmd tp pq h1 h2
    simp [RLFSMStateRL_Locomotion.run, tryPop, h1, h2]
  · intro rl cmd tp tv pq vq i h1 h2 hi
    simp [RLFSMStateRL_Locomotion.run, tryPop, h1, h2, hi]
  · intro rl cmd
    cases h1 : rl.output_dof_pos_queue <;> cases h2 : rl.output_dof_vel_queue <;>
      simp [RLFSMStateRL_Locomotion.run, RLFSMStateRL_Navigation.run, tryPop, h1, h2]

/-- A system state with usable decoded tensors at the head of both queues
(stored decoded position 11, velocity 12). -/
def demoSysBothQueues : RLSys :=
  { params := demoParams
    control := { control_state := STATE.STATE_RL_LOCOMOTION, x := 0, y := 0, yaw := 0 }
    running_percent := 1
    now_state := demoRobotState
    start_state := demoRobotState
    rl_init_done := true
    output_dof_pos := fun _ => 11
    output_dof_vel := fun _ => 12
    output_dof_pos_queue := [some { numel := 1, data := fun _ => 11 }]
    output_dof_vel_queue := [some { numel := 1, data := fun _ => 12 }] }

/-- Witness for C2 (amended): with both queues supplying usable tensors the
tick writes q := 11, dq := 12, the learned gains and zero torque; and with the
position queue starved the whole command is retained untouched. -/
theorem locomotion_tick_update_witness :
    ((RLFSMStateRL_Locomotion.run demoSysBothQueues demoCmd).2).q 0 = 11
      ∧ ((RLFSMStateRL_Locomotion.run demoSysBothQueues demoCmd).2).dq 0 = 12
      ∧ ((RLFSMStateRL_Locomotion.run demoSysBothQueues demoCmd).2).kp 0 = 40
      ∧ ((RLFSMStateRL_Locomotion.run demoSysBothQueues demoCmd).2).tau 0 = 0
      ∧ RLFSMStateRL_Locomotion.run demoSysVelOnly demoCmd = (demoSysVelOnly, demoCmd) := by
  have h := locomotion_tick_update.2.2.1 demoSysBothQueues demoCmd
    (some { numel := 1, data := fun _ => 11 }) (some { numel := 1, data := fun _ => 12 })
    [] [] 0 rfl rfl (by norm_num [demoSysBothQueues, demoParams])
  have hs := locomotion_tick_update.1 demoSysVelOnly demoCmd rfl
  refine ⟨?_, ?_, ?_, ?_, hs⟩
  · rw [h.1]; norm_num [tensorPresent, demoSysBothQueues]
  · rw [h.2.1]; norm_num [tensorPresent, demoSysBothQueues]
  · rw [h.2.2.1]; norm_num [demoSysBothQueues, demoParams]
  · exact h.2.2.2.2.1

/-- Scalar multiple of a 3-vector. -/
def v3smul (s : ℚ) (v : V3) : V3 := ⟨s * v.x, s * v.y, s * v.z⟩

/-- Componentwise sum of 3-vectors. -/
def v3add (u v : V3) : V3 := ⟨u.x + v.x, u.y + v.y, u.z + v.z⟩

/-- Componentwise difference of 3-vectors. -/
def v3sub (u v : V3) : V3 := ⟨u.x - v.x, u.y - v.y, u.z - v.z⟩

/-- Cross product of 3-vectors (`torch::cross`). -/
def v3cross (u v : V3) : V3 :=
  ⟨u.y * v.z - u.z * v.y, u.z * v.x - u.x * v.z, u.x * v.y - u.y * v.x⟩

/-- Dot product of 3-vectors (the `bmm` of the (1,3) by (3,1) views). -/
def v3dot (u v : V3) : ℚ := u.x * v.x + u.y * v.y + u.z * v.z

/-- Embeds `torch::clamp(x, lo, hi)`. -/
def clampQ (lo hi x : ℚ) : ℚ := min (max x lo) hi

/-- The arithmetic core of `RL::QuatRotateInverse` after (w, q_vec) extraction:
a = v·(2w²−1), b = (q_vec×v)·w·2, c = q_vec·(q_vec⋅v)·2, result a − b + c. -/
def quatRotateInverseCore (q_w : ℚ) (q_vec v : V3) : V3 :=
  let a := v3smul (2 * q_w ^ 2 - 1) v
  let b := v3smul (2 * q_w) (v3cross q_vec v)
  let c := v3smul (2 * v3dot q_vec v) q_vec
  v3add (v3sub a b) c

/-- Embeds `RL::QuatRotateInverse`: extract (w, q_vec) from the raw quaternion storage
per the framework convention — "isaacsim" scalar-first (w = q[0]), "isaacgym"
scalar-last (w = q[3]) — and rotate `v` by the inverse quaternion.  For any
other framework string the components are never assigned (`none`). -/
def QuatRotateInverse (framework : String) (q : Q4) (v : V3) : Option V3 :=
  if framework = "isaacsim" then
    some (quatRotateInverseCore q.a ⟨q.b, q.c, q.d⟩ v)
  else if framework = "isaacgym" then
    some (quatRotateInverseCore q.d ⟨q.a, q.b, q.c⟩ v)
  else
    none

/-- The spec's §4.1 inverse-rotation formula, written from its words:
out = v·(2w²−1) − 2w·(q_vec×v) + 2·q_vec·(q_vec·v). -/
def specQuatRotateInverseFormula (w : ℚ) (q_vec v : V3) : V3 :=
  v3add (v3sub (v3smul (2 * w * w - 1) v) (v3smul (2 * w) (v3cross q_vec v)))
    (v3smul 2 (v3smul (v3dot q_vec v) q_vec))

/-- C7: `QuatRotateInverse` implements out = v·(2w²−1) − 2w·(q_vec×v) +
2·q_vec·(q_vec·v) with the (w, q_vec) extraction order selected by the
configured convention (scalar-first "isaacsim", scalar-last "isaacgym"), and
for every vector v the rotation at the identity quaternion of either
convention returns v unchanged. -/
theorem quat_rotate_inverse_formula_and_identity (q : Q4) (v : V3) :
    QuatRotateInverse "isaacsim" q v
        = some (specQuatRotateInverseFormula q.a ⟨q.b, q.c, q.d⟩ v)
      ∧ QuatRotateInverse "isaacgym" q v
          = some (specQuatRotateInverseFormula q.d ⟨q.a, q.b, q.c⟩ v)
      ∧ QuatRotateInverse "isaacsim" ⟨1, 0, 0, 0⟩ v = some v
      ∧ QuatRotateInverse "isaacgym" ⟨0, 0, 0, 1⟩ v = some v := by
  refine ⟨?_, ?_, ?_, ?_⟩ <;>
    cases v <;>
      simp [QuatRotateInverse, quatRotateInverseCore, specQuatRotateInverseFormula,
        v3add, v3sub, v3smul, v3cross, v3dot] <;>
      ring_nf <;> norm_num

/-- Embeds `RL::ComputeOutput`: scale the raw actions per DOF, split them into a
position part (zeroed at wheel DOFs) and a velocity part (nonzero only at
wheel DOFs), and produce target positions (position part + default), target
velocities (velocity part) and the diagnostic torque
rl_kp·(scaled + default − measured position) − rl_kd·measured velocity,
clamped elementwise to ±torque_limits. -/
def ComputeOutput (params : Params) (obs_dof_pos obs_dof_vel : ℕ → ℚ)
    (actions : ℕ → ℚ) : (ℕ → ℚ) × (ℕ → ℚ) × (ℕ → ℚ) :=
  let actions_scaled := fun i => actions i * params.action_scale i
  let pos_actions_scaled := fun i =>
    if i ∈ params.wheel_indices then 0 else actions_scaled i
  let vel_actions_scaled := fun i =>
    if i ∈ params.wheel_indices then actions_scaled i else 0
  let all_actions_scaled := fun i => pos_actions_scaled i + vel_actions_scaled i
  (fun i => pos_actions_scaled i + params.default_dof_pos i,
   vel_actions_scaled,
   fun i =>
     clampQ (-(params.torque_limits i)) (params.torque_limits i)
       (params.rl_kp i * (all_actions_scaled i + params.default_dof_pos i - obs_dof_pos i)
         - params.rl_kd i * obs_dof_vel i))

/-- C6: for every raw action vector and DOF index, a wheel DOF decodes to
target velocity = action·scale with target position pinned to the default
(independent of the action), a non-wheel DOF decodes to target velocity 0 and
target position action·scale + default, and the diagnostic torque is
rl_kp·(action·scale + default − measured position) − rl_kd·measured velocity
clamped elementwise to ±torque_limit. -/
theorem compute_output_decoding (params : Params) (mp mv a : ℕ → ℚ) (i : ℕ) :
    (i ∈ params.wheel_indices →
        (ComputeOutput params mp mv a).2.1 i = a i * params.action_scale i
          ∧ (ComputeOutput params mp mv a).1 i = params.default_dof_pos i)
      ∧ (i ∉ params.wheel_indices →
          (ComputeOutput params mp mv a).2.1 i = 0
            ∧ (ComputeOutput params mp mv a).1 i
                = a i * params.action_scale i + params.default_dof_pos i)
      ∧ (ComputeOutput params mp mv a).2.2 i
          = clampQ (-(params.torque_limits i)) (params.torque_limits i)
              (params.rl_kp i
                  * (a i * params.action_scale i + params.default_dof_pos i - mp i)
                - params.rl_kd i * mv i) := by
  by_cases hw : i ∈ params.wheel_indices <;>
    simp [ComputeOutput, hw]

/-- Witness for C6 at the concrete 1-wheel configuration: DOF 0 is a wheel
(velocity 8·(1/4) = 2, position pinned to the default 1/10), DOF 1 is not
(velocity 0, position 2 + 1/10), and the diagnostic torque at DOF 0 with zero
measured state is clamped from 40·(2 + 1/10) = 84 down to the limit 33. -/
theorem compute_output_decoding_witness :
    (0 ∈ demoParams.wheel_indices
        ∧ (ComputeOutput demoParams (fun _ => 0) (fun _ => 0) (fun _ => 8)).2.1 0 = 2
        ∧ (ComputeOutput demoParams (fun _ => 0) (fun _ => 0) (fun _ => 8)).1 0 = 1 / 10)
      ∧ (1 ∉ demoParams.wheel_indices
          ∧ (ComputeOutput demoParams (fun _ => 0) (fun _ => 0) (fun _ => 8)).2.1 1 = 0
          ∧ (ComputeOutput demoParams (fun _ => 0) (fun _ => 0) (fun _ => 8)).1 1 = 21 / 10)
      ∧ (ComputeOutput demoParams (fun _ => 0) (fun _ => 0) (fun _ => 8)).2.2 0 = 33 := by
  have h0 := compute_output_decoding demoParams (fun _ => 0) (fun _ => 0) (fun _ => 8) 0
  have h1 := compute_output_decoding demoParams (fun _ => 0) (fun _ => 0) (fun _ => 8) 1
  have hm0 : 0 ∈ demoParams.wheel_indices := by simp [demoParams]
  have hm1 : 1 ∉ demoParams.wheel_indices := by simp [demoParams]
  refine ⟨⟨hm0, ?_, ?_⟩, ⟨hm1, ?_, ?_⟩, ?_⟩
  · rw [(h0.1 hm0).1]; norm_num [demoParams]
  · exact (h0.1 hm0).2
  · exact (h1.2.1 hm1).1
  · rw [(h1.2.1 hm1).2]; norm_num [demoParams]
  · rw [h0.2.2]; norm_num [demoParams, clampQ]

/-- The violation scan of `RL::TorqueProtect`: indices of the input torque
tensor whose value falls strictly outside (−limit, +limit). -/
def torqueViolationIndices (params : Params) (origin_output_dof_tau : Tensor) : List ℕ :=
  (List.range origin_output_dof_tau.numel).filter fun i =>
    decide (origin_output_dof_tau.data i < -(params.torque_limits i))
      || decide (params.torque_limits i < origin_output_dof_tau.data i)

/-- Embeds `RL::TorqueProtect`: record (index, value) for each out-of-range DOF and
emit one warning tuple (index, value, lower limit, upper limit) per violating
DOF.  Purely advisory: the protective state switch in the source is commented
out, so the system state is returned unchanged. -/
def TorqueProtect (rl : RLSys) (origin_output_dof_tau : Tensor) :
    RLSys × List (ℕ × ℚ × ℚ × ℚ) :=
  (rl,
   (torqueViolationIndices rl.params origin_output_dof_tau).map fun i =>
     (i, origin_output_dof_tau.data i, -(rl.params.torque_limits i),
       rl.params.torque_limits i))

/-- The roll/pitch arithmetic of `RL::AttitudeProtect` after (w,x,y,z)
extraction: roll = atan2(2(wx+yz), 1−2(x·x+y·y))·rad2deg; sinp = 2(wy−zx);
when |sinp| ≥ 1, pitch = copysign(90, sinp), else pitch = asin(sinp)·rad2deg.
The math-library atan2 and asin are opaque parameters. -/
def attitudeCore (atan2q : ℚ → ℚ → ℚ) (asinq : ℚ → ℚ) (w x y z : ℚ) : ℚ × ℚ :=
  let rad2deg : ℚ := 572958 / 10000
  let sinr_cosp := 2 * (w * x + y * z)
  let cosr_cosp := 1 - 2 * (x * x + y * y)
  let roll := atan2q sinr_cosp cosr_cosp * rad2deg
  let sinp := 2 * (w * y - z * x)
  let pitch :=
    if 1 ≤ |sinp| then (if sinp < 0 then (-90 : ℚ) else 90) else asinq sinp * rad2deg
  (roll, pitch)

/-- The component extraction of `RL::AttitudeProtect`: "isaacgym" reads the
scalar from index 3, "isaacsim" from index 0; any other framework leaves
(w,x,y,z) unassigned (`none`). -/
def attitudeRollPitch (framework : String) (atan2q : ℚ → ℚ → ℚ) (asinq : ℚ → ℚ)
    (quaternion : Q4) : Option (ℚ × ℚ) :=
  if framework = "isaacgym" then
    some (attitudeCore atan2q asinq quaternion.d quaternion.a quaternion.b quaternion.c)
  else if framework = "isaacsim" then
    some (attitudeCore atan2q asinq quaternion.a quaternion.b quaternion.c quaternion.d)
  else
    none

/-- Embeds `RL::AttitudeProtect`: compute roll/pitch from the quaternion under the
configured convention and emit the pair of warning flags (roll exceeded, pitch
exceeded).  Purely advisory: the protective state switch in the source is
commented out, so the system state is returned unchanged. -/
def AttitudeProtect (rl : RLSys) (atan2q : ℚ → ℚ → ℚ) (asinq : ℚ → ℚ)
    (quaternion : Q4) (pitch_threshold roll_threshold : ℚ) :
    RLSys × Option (Bool × Bool) :=
  (rl,
   (attitudeRollPitch rl.params.framework atan2q asinq quaternion).map fun rp =>
     (decide (roll_threshold < |rp.1|), decide (pitch_threshold < |rp.2|)))

/-- The spec's §4.4 roll/pitch formulas, written from its words:
roll = atan2(2(wx+yz), 1−2(x²+y²)) and pitch = asin(clamp(2(wy−zx), −1, 1)),
saturating to ±90° at the singularity, both converted to degrees. -/
def specRollPitch (atan2q : ℚ → ℚ → ℚ) (asinq : ℚ → ℚ) (w x y z : ℚ) : ℚ × ℚ :=
  let rad2deg : ℚ := 572958 / 10000
  let sinp := 2 * (w * y - z * x)
  (atan2q (2 * (w * x + y * z)) (1 - 2 * (x ^ 2 + y ^ 2)) * rad2deg,
   if 1 ≤ sinp then (90 : ℚ)
   else if sinp ≤ -1 then (-90 : ℚ)
   else asinq sinp * rad2deg)

/-- C9: both safety checks are advisory and total.  The torque check returns
the system state unchanged and warns with (index, value, lower, upper) exactly
for the DOFs whose diagnostic torque magnitude strictly exceeds the limit; the
attitude check returns the state unchanged, its roll/pitch agree with the
spec's formulas under both conventions (the asin argument is effectively
clamped: pitch saturates to ±90 when |2(wy−zx)| ≥ 1, and at the singularity
the result does not consult asin at all), and its warnings fire exactly when
|roll| or |pitch| strictly exceeds its threshold. -/
theorem safety_checks_advisory (rl : RLSys) (tau : Tensor)
    (atan2q : ℚ → ℚ → ℚ) (asinq asinq2 : ℚ → ℚ) (quat : Q4) (pth rth : ℚ) :
    (TorqueProtect rl tau).1 = rl
      ∧ (AttitudeProtect rl atan2q asinq quat pth rth).1 = rl
      ∧ (∀ i, i ∈ torqueViolationIndices rl.params tau
            ↔ (i < tau.numel ∧ rl.params.torque_limits i < |tau.data i|))
      ∧ (TorqueProtect rl tau).2
          = (torqueViolationIndices rl.params tau).map
              (fun i => (i, tau.data i, -(rl.params.torque_limits i),
                rl.params.torque_limits i))
      ∧ attitudeRollPitch "isaacsim" atan2q asinq quat
          = some (specRollPitch atan2q asinq quat.a quat.b quat.c quat.d)
      ∧ attitudeRollPitch "isaacgym" atan2q asinq quat
          = some (specRollPitch atan2q asinq quat.d quat.a quat.b quat.c)
      ∧ (∀ w x y z : ℚ, 1 ≤ |2 * (w * y - z * x)| →
            attitudeCore atan2q asinq w x y z = attitudeCore atan2q asinq2 w x y z)
      ∧ (AttitudeProtect rl atan2q asinq quat pth rth).2
          = (attitudeRollPitch rl.params.framework atan2q asinq quat).map
              (fun rp => (decide (rth < |rp.1|), decide (pth < |rp.2|))) := by
  have hcore : ∀ (w x y z : ℚ),
      attitudeCore atan2q asinq w x y z = specRollPitch atan2q asinq w x y z := by
    intro w x y z
    unfold attitudeCore specRollPitch
    refine Prod.ext ?_ ?_
    · simp only []
      congr 2
      ring
    · simp only []
      rcases le_or_lt 1 (2 * (w * y - z * x)) with h1 | h1
      · have habs : 1 ≤ |2 * (w * y - z * x)| := le_trans h1 (le_abs_self _)
        have hneg : ¬ (2 * (w * y - z * x) < 0) := by linarith
        simp [habs, hneg, h1]
      · rcases le_or_lt (2 * (w * y - z * x)) (-1) with h2 | h2
        · have habs : 1 ≤ |2 * (w * y - z * x)| := by
            rw [le_abs]; right; linarith
          have hneg : 2 * (w * y - z * x) < 0 := by linarith
          simp [habs, hneg, not_le.mpr h1, h2]
        · have habs : ¬ (1 ≤ |2 * (w * y - z * x)|) := by
            rw [not_le, abs_lt]; exact ⟨by linarith, h1⟩
          simp [habs, not_le.mpr h1, not_le.mpr h2]
  refine ⟨rfl, rfl, ?_, rfl, ?_, ?_, ?_, rfl⟩
  · intro i
    simp only [torqueViolationIndices, List.mem_filter, List.mem_range,
      Bool.or_eq_true, decide_eq_true_eq]
    constructor
    · rintro ⟨hi, h | h⟩
      · exact ⟨hi, by rw [lt_abs]; right; linarith⟩
      · exact ⟨hi, by rw [lt_abs]; left; exact h⟩
    · rintro ⟨hi, h⟩
      rw [lt_abs] at h
      rcases h with h | h
      · exact ⟨hi, Or.inr h⟩
      · exact ⟨hi, Or.inl (by linarith)⟩
  · simp [attitudeRollPitch, hcore]
  · simp [attitudeRollPitch, hcore]
  · intro w x y z h
    unfold attitudeCore
    simp [h]

/-- Witness for C9: at the singularity quaternion (w,y) = (1,1) the sine of
pitch is 2 ≥ 1, the saturated result is independent of the asin routine, and a
diagnostic torque of 50 against the limit 33 yields exactly the warning record
(0, 50, −33, 33). -/
theorem safety_checks_advisory_witness :
    (1 : ℚ) ≤ |2 * ((1 : ℚ) * 1 - 0 * 0)|
      ∧ attitudeCore (fun _ _ => 0) (fun s => s) 1 0 1 0
          = attitudeCore (fun _ _ => 0) (fun _ => 37) 1 0 1 0
      ∧ (TorqueProtect demoSysGetDown { numel := 1, data := fun _ => 50 }).2
          = [(0, 50, -33, 33)] := by
  have h := safety_checks_advisory demoSysGetDown { numel := 1, data := fun _ => 50 }
    (fun _ _ => 0) (fun s => s) (fun _ => 37) ⟨1, 0, 0, 0⟩ 75 75
  refine ⟨by norm_num, h.2.2.2.2.2.2.1 1 0 1 0 (by norm_num), ?_⟩
  rw [h.2.2.2.1]
  norm_num [torqueViolationIndices, demoSysGetDown, demoParams, List.filter]

/-- C10: `QuatRotateInverse` and the attitude extraction are well-defined
exactly under the precondition that the configured framework is "isaacsim" or
"isaacgym"; for any other framework string the quaternion components are never
assigned before use, so the embedding yields a value iff the precondition
holds. -/
theorem framework_convention_totality (framework : String) (q : Q4) (v : V3)
    (atan2q : ℚ → ℚ → ℚ) (asinq : ℚ → ℚ) :
    ((QuatRotateInverse framework q v).isSome
        ↔ (framework = "isaacsim" ∨ framework = "isaacgym"))
      ∧ ((attitudeRollPitch framework atan2q asinq q).isSome
          ↔ (framework = "isaacgym" ∨ framework = "isaacsim")) := by
  constructor
  · unfold QuatRotateInverse
    split_ifs with h1 h2
    · simp [h1]
    · simp [h1, h2]
    · simp [h1, h2]
  · unfold attitudeRollPitch
    split_ifs with h1 h2
    · simp [h1]
    · simp [h1, h2]
    · simp [h1, h2]

/-- Truncation toward zero (the quotient convention of C `fmod`). -/
def qtrunc (x : ℚ) : ℤ := if 0 ≤ x then ⌊x⌋ else ⌈x⌉

/-- C `fmod`. -/
def qfmod (a b : ℚ) : ℚ := a - b * (qtrunc (a / b) : ℚ)

/-- Sequence a list of optional rows, failing if any element failed. -/
def seqOptions {α : Type} : List (Option α) → Option (List α)
  | [] => some []
  | none :: _ => none
  | some x :: rest => (seqOptions rest).map fun xs => x :: xs

/-- The observation inputs (`this->obs`) read by `ComputeObservation`. -/
structure Obs where
  lin_vel : V3
  ang_vel : V3
  gravity_vec : V3
  commands : V3
  base_quat : Q4
  dof_pos : ℕ → ℚ
  dof_vel : ℕ → ℚ
  actions : ℕ → ℚ

/-- One pass of the `ComputeObservation` if/else-if chain for a single term
name: `none` when the name matches no branch — the loop then simply moves on
(silent skip, there is no else) — and `some r` when a branch is taken, where
`r` is the produced sub-row, or `none` if its computation fails (unassigned
quaternion extraction under an invalid framework). -/
def termRow (params : Params) (o : Obs) (episode_length_buf : ℕ)
    (rsin rcos : ℚ → ℚ) (t : String) : Option (Option (List ℚ)) :=
  if t = "lin_vel" then
    some (some [o.lin_vel.x * params.lin_vel_scale, o.lin_vel.y * params.lin_vel_scale,
      o.lin_vel.z * params.lin_vel_scale])
  else if t = "ang_vel_body" then
    some (some [o.ang_vel.x * params.ang_vel_scale, o.ang_vel.y * params.ang_vel_scale,
      o.ang_vel.z * params.ang_vel_scale])
  else if t = "ang_vel_world" then
    some ((QuatRotateInverse params.framework o.base_quat o.ang_vel).map
      fun u => [u.x * params.ang_vel_scale, u.y * params.ang_vel_scale,
        u.z * params.ang_vel_scale])
  else if t = "gravity_vec" then
    some ((QuatRotateInverse params.framework o.base_quat o.gravity_vec).map
      fun u => [u.x, u.y, u.z])
  else if t = "commands" then
    some (some [o.commands.x * params.commands_scale.x,
      o.commands.y * params.commands_scale.y, o.commands.z * params.commands_scale.z])
  else if t = "dof_pos" then
    some (some ((List.range params.num_of_dofs).map fun i =>
      (if i ∈ params.wheel_indices then 0 else o.dof_pos i - params.default_dof_pos i)
        * params.dof_pos_scale))
  else if t = "dof_vel" then
    some (some ((List.range params.num_of_dofs).map fun i =>
      o.dof_vel i * params.dof_vel_scale))
  else if t = "actions" then
    some (some ((List.range params.num_of_dofs).map fun i => o.actions i))
  else if t = "phase" then
    let phase := 31415926 / 10000000 * (episode_length_buf : ℚ) * params.dt
      * (params.decimation : ℚ) / 2
    some (some [rsin phase, rcos phase, rsin (phase / 2), rcos (phase / 2),
      rsin (phase / 4), rcos (phase / 4)])
  else if t = "g1_phase" then
    let count := (episode_length_buf : ℚ) * params.dt * (params.decimation : ℚ)
    let phase := qfmod count (4 / 5) / (4 / 5)
    some (some [rsin (2 * (31415926 / 10000000) * phase),
      rcos (2 * (31415926 / 10000000) * phase)])
  else
    none

/-- The term names matched by some branch of `ComputeObservation`. -/
def recognizedObservation (t : String) : Bool :=
  t == "lin_vel" || t == "ang_vel_body" || t == "ang_vel_world" || t == "gravity_vec"
    || t == "commands" || t == "dof_pos" || t == "dof_vel" || t == "actions"
    || t == "phase" || t == "g1_phase"

/-- Embeds `RL::ComputeObservation`: walk the configured term list collecting the
sub-rows of the matched branches (names matching no branch contribute
nothing), concatenate with `torch::cat`, and clamp elementwise to ±clip_obs.
`none` models the runtime failures: a failed sub-row computation, or `cat` on
an empty list when no configured term was recognized. -/
def ComputeObservation (params : Params) (o : Obs) (episode_length_buf : ℕ)
    (rsin rcos : ℚ → ℚ) : Option (List ℚ) :=
  let obs_list :=
    params.observations.filterMap (termRow params o episode_length_buf rsin rcos)
  if obs_list.isEmpty then none
  else
    (seqOptions obs_list).map fun rows =>
      rows.flatten.map (clampQ (-params.clip_obs) params.clip_obs)

/-- Embeds `InitRL`'s only processing of the configured observation names: rewrite the
generic "ang_vel" into "ang_vel_world" (simulation) or "ang_vel_body" (real
robot).  Names are never validated. -/
def initRLTermPhase (is_simulation : Bool) (names : List String) : List String :=
  names.map fun t =>
    if t = "ang_vel" then (if is_simulation then "ang_vel_world" else "ang_vel_body")
    else t

/-- Embeds `RL::InitRL` as observable at mode-activation time: it can fail only from
config-file/model loading (`ReadYamlRL` / `torch::jit::load`), abstracted as
`model_load_ok`; the observation term names are only rewritten, never checked. -/
def InitRL (model_load_ok : Bool) (is_simulation : Bool) (params : Params) :
    Except String Params :=
  if model_load_ok then
    Except.ok
      { params with observations := initRLTermPhase is_simulation params.observations }
  else
    Except.error "model load failed"

/-- The C5 property as the specification states it (written from the spec's
words, for comparison with the code): a configured term list containing an
unrecognized name is surfaced as a configuration error at mode-activation
time, aborting the activation. -/
def unrecognizedTermAbortsClaim : Prop :=
  ∀ (params : Params) (model_load_ok is_simulation : Bool),
    (∃ t ∈ params.observations, recognizedObservation t = false) →
      ∀ p2, InitRL model_load_ok is_simulation params ≠ Except.ok p2

/-- A parameter set configured with the unrecognized term name "bogus". -/
def demoParamsBogus : Params :=
  { demoParams with observations := ["bogus", "dof_vel"] }

/-- Concrete observation inputs. -/
def demoObs : Obs :=
  { lin_vel := ⟨0, 0, 0⟩
    ang_vel := ⟨0, 0, 0⟩
    gravity_vec := ⟨0, 0, -1⟩
    commands := ⟨0, 0, 0⟩
    base_quat := ⟨0, 0, 0, 1⟩
    dof_pos := fun _ => 0
    dof_vel := fun _ => 3
    actions := fun _ => 0 }

/-- Helper: on an unrecognized name every branch of the if/else-if chain is
rejected, so the loop contributes nothing for it. -/
theorem termRow_none_of_unrecognized (params : Params) (o : Obs) (ep : ℕ)
    (rsin rcos : ℚ → ℚ) (t : String) (h : recognizedObservation t = false) :
    termRow params o ep rsin rcos t = none := by
  simp only [recognizedObservation, Bool.or_eq_false_iff, beq_eq_false_iff_ne, ne_eq] at h
  obtain ⟨⟨⟨⟨⟨⟨⟨⟨⟨h1, h2⟩, h3⟩, h4⟩, h5⟩, h6⟩, h7⟩, h8⟩, h9⟩, h10⟩ := h
  simp only [termRow, if_neg h1, if_neg h2, if_neg h3, if_neg h4, if_neg h5, if_neg h6,
    if_neg h7, if_neg h8, if_neg h9, if_neg h10]

/-- Helper: filtering a term list down to its recognized names does not change
the collected sub-rows. -/
theorem filterMap_termRow_filter (params : Params) (o : Obs) (ep : ℕ)
    (rsin rcos : ℚ → ℚ) (l : List String) :
    (l.filter recognizedObservation).filterMap (termRow params o ep rsin rcos)
      = l.filterMap (termRow params o ep rsin rcos) := by
  induction l with
  | nil => rfl
  | cons t rest ih =>
    by_cases h : recognizedObservation t
    · simp [List.filter_cons, h, List.filterMap_cons, ih]
    · have hnone := termRow_none_of_unrecognized params o ep rsin rcos t
        (by simpa using h)
      simp [List.filter_cons, h, List.filterMap_cons, hnone, ih]

/-- Counterexample to C5 as stated: "bogus" is an unrecognized term name, yet
activation with it configured succeeds (`InitRL` never inspects the names
beyond the ang_vel rewrite) and observation assembly silently skips it — the
assembled row is exactly the dof_vel sub-row [3·(1/20)]. -/
theorem unrecognized_term_not_surfaced :
    recognizedObservation "bogus" = false
      ∧ InitRL true false demoParamsBogus
          = Except.ok { demoParamsBogus with observations := ["bogus", "dof_vel"] }
      ∧ ComputeObservation demoParamsBogus demoObs 0 (fun s => s) (fun s => s)
          = some [3 / 20]
      ∧ ¬ unrecognizedTermAbortsClaim := by
  refine ⟨by decide, rfl, ?_, ?_⟩
  · have hr : List.range 1 = [0] := by decide
    have hb : termRow demoParamsBogus demoObs 0 (fun s => s) (fun s => s) "bogus"
        = none := by decide
    have hobs : demoParamsBogus.observations = ["bogus", "dof_vel"] := rfl
    simp [ComputeObservation, hobs, hb, termRow, seqOptions, hr, demoParamsBogus,
      demoParams]
    norm_num [clampQ, demoObs, min_def, max_def]
  · intro hclaim
    exact hclaim demoParamsBogus true false
      ⟨"bogus", by simp [demoParamsBogus], by decide⟩
      { demoParamsBogus with observations := ["bogus", "dof_vel"] } rfl

/-- C5 amended: an unrecognized observation term name is not surfaced at
mode-activation time — with the model load succeeding, `InitRL` activates
regardless of the configured names, only rewriting "ang_vel" — and during
observation assembly unrecognized names are silently skipped: the assembled
row equals the assembly over the recognized sublist alone. -/
theorem unrecognized_term_skipped :
    (∀ (params : Params) (is_simulation : Bool),
        InitRL true is_simulation params
          = Except.ok
              { params with
                observations := initRLTermPhase is_simulation params.observations })
      ∧ (∀ (params : Params) (o : Obs) (ep : ℕ) (rsin rcos : ℚ → ℚ),
          ComputeObservation
              { params with
                observations := params.observations.filter recognizedObservation }
              o ep rsin rcos
            = ComputeObservation params o ep rsin rcos) := by
  constructor
  · intro params is_simulation
    rfl
  · intro params o ep rsin rcos
    have hl : ({ params with
          observations := params.observations.filter recognizedObservation } :
            Params).observations.filterMap
          (termRow
            { params with
              observations := params.observations.filter recognizedObservation }
            o ep rsin rcos)
        = params.observations.filterMap (termRow params o ep rsin rcos) :=
      filterMap_termRow_filter params o ep rsin rcos params.observations
    simp only [ComputeObservation]
    rw [hl]
